import Mathlib

/-!
Shallow embedding of the PDF-viewer core of the Student-Note-Manager
application (`src/app.py`, class `PDFViewerScreen`).

The screen state consists of the Kivy properties `pdf_files`,
`current_index`, `pdf_locked`, plus the two UI surfaces the handlers
mutate: the `pages_layout` widget list (one displayable image per
rasterized page) and the `pdf_info_label` status text.

The external collaborators (`fitz` / PyMuPDF and the PNG-to-texture
pipeline) are abstracted by an environment `FitzEnv`: opening a path
either raises (an exception message) or yields the document's pages,
each of which either rasterizes to a displayable texture or raises when
`page.get_pixmap()` is evaluated.

Each handler returns the post-state together with two observations:
`docLeaked` records that a successfully opened `fitz` document was left
unclosed (its `doc.close()` was never reached), and `raised` records
that a Python exception escaped the handler.
-/

namespace StudentNoteManager

/-- A displayable page image (the texture blitted into the page widget);
its identity is all the claims need. -/
abbrev Texture := Nat

/-- Environment abstracting `fitz.open` and per-page rasterization:
`.error e` means `fitz.open path` raises with message `e`; `.ok pages`
means the document opens and page `i` either rasterizes to `some t` or
raises (`none`) when `page.get_pixmap()` runs. -/
abbrev FitzEnv := String → Except String (List (Option Texture))

/-- State of `PDFViewerScreen`: the three Kivy properties plus the two
mutated UI surfaces. Initial values follow the class and KV definitions. -/
structure ViewerState where
  pdf_files : List String
  current_index : Int
  pdf_locked : Bool
  pages_layout : List Texture
  pdf_info_label : String
  deriving DecidableEq, Repr

/-- Result of running a handler: post-state plus whether an opened
document was leaked (never closed) and whether an exception escaped. -/
structure LoadResult where
  state : ViewerState
  docLeaked : Bool
  raised : Bool
  deriving DecidableEq, Repr

/-- `str.lower()`: lowercase a string character by character. -/
def strLower (s : String) : String :=
  String.mk (s.data.map Char.toLower)

/-- `str.endswith(suff)`: suffix test on the underlying character lists. -/
def strEndsWith (s suff : String) : Bool :=
  suff.data.isSuffixOf s.data

/-- `os.path.basename` for POSIX paths: the part after the last slash. -/
def basename (p : String) : String :=
  String.mk ((p.data.reverse.takeWhile (fun c => c ≠ '/')).reverse)

/-- Python list indexing `l[i]` for an `int` index: a negative index
counts from the end; out of range raises `IndexError` (modelled `none`). -/
def pyIndex {α : Type} (l : List α) (i : Int) : Option α :=
  let j := if i < 0 then i + (l.length : Int) else i
  if h : 0 ≤ j ∧ j < (l.length : Int) then some (l.get ⟨j.toNat, by omega⟩)
  else none

/-- The page loop of `load_current_pdf`: walk the document's pages in
order, converting each rasterized page into a widget; stop at the first
page whose `get_pixmap()` raises. Returns the widgets added and whether
the loop completed without an exception. -/
def renderPages : List (Option Texture) → List Texture × Bool
  | [] => ([], true)
  | none :: _ => ([], false)
  | some t :: rest => ((t :: (renderPages rest).1), (renderPages rest).2)

/-- `update_pdf_label`: show which PDF is active, plus lock status.
Reads `pdf_files[current_index]`, so it can raise `IndexError` when the
index is out of range (then the label is left unchanged). -/
def update_pdf_label (s : ViewerState) : LoadResult :=
  if s.pdf_files.isEmpty then
    ⟨{ s with pdf_info_label := "No PDFs selected." }, false, false⟩
  else
    match pyIndex s.pdf_files s.current_index with
    | none => ⟨s, false, true⟩
    | some p =>
      let current := s.current_index + 1
      let total := s.pdf_files.length
      let name := basename p
      let locked_text := if s.pdf_locked then " (Locked)" else ""
      ⟨{ s with pdf_info_label :=
          "Viewing " ++ toString current ++ "/" ++ toString total ++ ": "
            ++ name ++ locked_text }, false, false⟩

/-- `load_current_pdf`: render the pages of the current PDF into the
scrollable layout. The label is set to `Loading {name}...` and the page
widgets are cleared before `fitz.open` is attempted; an open failure
replaces the label with the error message; the page loop adds one widget
per page and `doc.close()` runs only after the loop completes, so a page
failure both leaks the document and lets the exception escape. -/
def load_current_pdf (env : FitzEnv) (s : ViewerState) : LoadResult :=
  if s.pdf_files.isEmpty then
    ⟨{ s with pdf_info_label := "No PDFs selected." }, false, false⟩
  else
    match pyIndex s.pdf_files s.current_index with
    | none => ⟨s, false, true⟩
    | some pdf_path =>
      let name := basename pdf_path
      let s1 := { s with pdf_info_label := "Loading " ++ name ++ "...",
                         pages_layout := [] }
      match env pdf_path with
      | .error e =>
        ⟨{ s1 with pdf_info_label := "Error opening PDF:" ++ "\n" ++ e },
          false, false⟩
      | .ok pages =>
        let r := renderPages pages
        let s2 := { s1 with pages_layout := r.1 }
        if r.2 then update_pdf_label s2
        else ⟨s2, true, true⟩

/-- `handle_pdfs_selection`: append the chosen PDFs to the list and
display the first if the list was empty before. An empty (cancelled)
selection only sets the status label. -/
def handle_pdfs_selection (env : FitzEnv) (s : ViewerState)
    (selection : List String) : LoadResult :=
  if selection.isEmpty then
    ⟨{ s with pdf_info_label := "No PDFs selected." }, false, false⟩
  else
    let s1 := { s with pdf_files := s.pdf_files ++ selection }
    if 0 < selection.length ∧ s1.pdf_files.length = selection.length then
      load_current_pdf env { s1 with current_index := 0 }
    else
      update_pdf_label s1

/-- `prev_pdf`: go to the previous PDF if not locked. -/
def prev_pdf (env : FitzEnv) (s : ViewerState) : LoadResult :=
  if s.pdf_locked then ⟨s, false, false⟩
  else if s.pdf_files.isEmpty then ⟨s, false, false⟩
  else
    load_current_pdf env
      { s with current_index :=
          (s.current_index - 1) % (s.pdf_files.length : Int) }

/-- `next_pdf`: go to the next PDF if not locked. -/
def next_pdf (env : FitzEnv) (s : ViewerState) : LoadResult :=
  if s.pdf_locked then ⟨s, false, false⟩
  else if s.pdf_files.isEmpty then ⟨s, false, false⟩
  else
    load_current_pdf env
      { s with current_index :=
          (s.current_index + 1) % (s.pdf_files.length : Int) }

/-- `toggle_lock`: lock or unlock PDF switching, then refresh the label. -/
def toggle_lock (s : ViewerState) : LoadResult :=
  update_pdf_label { s with pdf_locked := !s.pdf_locked }

/-- `add_dropped_pdf`: called when the user drags a file into the app;
non-`.pdf` paths (case-insensitively) are ignored, otherwise the path is
appended and, if it is the first PDF, loaded. -/
def add_dropped_pdf (env : FitzEnv) (s : ViewerState) (path : String) :
    LoadResult :=
  let lower_path := strLower path
  if !(strEndsWith lower_path (".pdf")) then ⟨s, false, false⟩
  else
    let old_len := s.pdf_files.length
    let s1 := { s with pdf_files := s.pdf_files ++ [path] }
    if old_len = 0 then load_current_pdf env { s1 with current_index := 0 }
    else update_pdf_label s1

/-- Screen state at startup: properties from the class defaults, label
from the KV declaration. -/
def initState : ViewerState :=
  { pdf_files := [], current_index := 0, pdf_locked := false,
    pages_layout := [],
    pdf_info_label := "Click \x27Open PDFs\x27 or drag some in." }

/-- The user-triggered operations that mutate the document collection. -/
inductive Op
  | pick (selection : List String)
  | drop (path : String)
  | next
  | prev
  | lock
  deriving DecidableEq, Repr

/-- Run one operation (discarding the leak/exception observations). -/
def runOp (env : FitzEnv) (s : ViewerState) : Op → ViewerState
  | .pick sel => (handle_pdfs_selection env s sel).state
  | .drop p => (add_dropped_pdf env s p).state
  | .next => (next_pdf env s).state
  | .prev => (prev_pdf env s).state
  | .lock => (toggle_lock s).state

/-- States reachable from startup by any sequence of operations, each
against an arbitrary environment. -/
inductive Reachable : ViewerState → Prop
  | init : Reachable initState
  | step (env : FitzEnv) (op : Op) {s : ViewerState} :
      Reachable s → Reachable (runOp env s op)

/-- A navigation keystroke: Next PDF or Prev PDF. -/
inductive NavOp
  | next
  | prev
  deriving DecidableEq, Repr

/-- Run a sequence of Next/Prev keystrokes. -/
def runNavs (env : FitzEnv) (s : ViewerState) : List NavOp → ViewerState
  | [] => s
  | .next :: rest => runNavs env (next_pdf env s).state rest
  | .prev :: rest => runNavs env (prev_pdf env s).state rest

/-- Collection invariant: a non-empty document list has its cursor in
range `[0, length-1]`. -/
def IndexInv (s : ViewerState) : Prop :=
  s.pdf_files ≠ [] →
    0 ≤ s.current_index ∧ s.current_index < (s.pdf_files.length : Int)

/-- Concrete test environment: `a.pdf` opens with three pages, `b.pdf`
with one page, `bad.pdf` opens but its second page fails to rasterize,
and every other path fails to open. -/
def demoEnv : FitzEnv := fun p =>
  if p = "a.pdf" then .ok [some 1, some 2, some 3]
  else if p = "b.pdf" then .ok [some 4]
  else if p = "bad.pdf" then .ok [some 7, none]
  else .error "boom"

/-- One document `a.pdf` being viewed, with a stale page widget. -/
def sA : ViewerState :=
  { pdf_files := ["a.pdf"], current_index := 0, pdf_locked := false,
    pages_layout := [9], pdf_info_label := "" }

/-- One document `x.pdf` (which fails to open) being viewed. -/
def sX : ViewerState :=
  { pdf_files := ["x.pdf"], current_index := 0, pdf_locked := false,
    pages_layout := [9], pdf_info_label := "" }

/-- Two documents, unlocked, cursor on the first. -/
def sU : ViewerState :=
  { pdf_files := ["a.pdf", "b.pdf"], current_index := 0, pdf_locked := false,
    pages_layout := [], pdf_info_label := "" }

/-- Two documents with the lock engaged. -/
def sLk : ViewerState :=
  { pdf_files := ["a.pdf", "b.pdf"], current_index := 0, pdf_locked := true,
    pages_layout := [], pdf_info_label := "" }

/-- Viewing `bad.pdf`, whose second page fails to rasterize. -/
def sBad : ViewerState :=
  { pdf_files := ["bad.pdf"], current_index := 0, pdf_locked := false,
    pages_layout := [5], pdf_info_label := "" }

/-!
Helper lemmas about the embedded handlers.
-/

/-- `update_pdf_label` only writes the status label. -/
theorem update_pdf_label_files (s : ViewerState) :
    (update_pdf_label s).state.pdf_files = s.pdf_files := by
  unfold update_pdf_label
  split
  · rfl
  · split <;> rfl

/-- `update_pdf_label` does not move the cursor. -/
theorem update_pdf_label_index (s : ViewerState) :
    (update_pdf_label s).state.current_index = s.current_index := by
  unfold update_pdf_label
  split
  · rfl
  · split <;> rfl

/-- `update_pdf_label` does not touch the lock flag. -/
theorem update_pdf_label_locked (s : ViewerState) :
    (update_pdf_label s).state.pdf_locked = s.pdf_locked := by
  unfold update_pdf_label
  split
  · rfl
  · split <;> rfl

/-- `update_pdf_label` does not touch the page widgets. -/
theorem update_pdf_label_layout (s : ViewerState) :
    (update_pdf_label s).state.pages_layout = s.pages_layout := by
  unfold update_pdf_label
  split
  · rfl
  · split <;> rfl

/-- `update_pdf_label` never leaks a document. -/
theorem update_pdf_label_docLeaked (s : ViewerState) :
    (update_pdf_label s).docLeaked = false := by
  unfold update_pdf_label
  split
  · rfl
  · split <;> rfl

/-- `update_pdf_label` raises no exception when the cursor is valid. -/
theorem update_pdf_label_raised (s : ViewerState) (p : String)
    (h : pyIndex s.pdf_files s.current_index = some p) :
    (update_pdf_label s).raised = false := by
  unfold update_pdf_label
  split
  · rfl
  · rw [h]

/-- `load_current_pdf` never changes the document list. -/
theorem load_current_pdf_files (env : FitzEnv) (s : ViewerState) :
    (load_current_pdf env s).state.pdf_files = s.pdf_files := by
  unfold load_current_pdf
  split
  · rfl
  · split
    · rfl
    · split
      · rfl
      · dsimp only
        split
        · rw [update_pdf_label_files]
        · rfl

/-- `load_current_pdf` never moves the cursor. -/
theorem load_current_pdf_index (env : FitzEnv) (s : ViewerState) :
    (load_current_pdf env s).state.current_index = s.current_index := by
  unfold load_current_pdf
  split
  · rfl
  · split
    · rfl
    · split
      · rfl
      · dsimp only
        split
        · rw [update_pdf_label_index]
        · rfl

/-- `load_current_pdf` never touches the lock flag. -/
theorem load_current_pdf_locked (env : FitzEnv) (s : ViewerState) :
    (load_current_pdf env s).state.pdf_locked = s.pdf_locked := by
  unfold load_current_pdf
  split
  · rfl
  · split
    · rfl
    · split
      · rfl
      · dsimp only
        split
        · rw [update_pdf_label_locked]
        · rfl

/-- Python indexing into the empty list always raises `IndexError`. -/
theorem pyIndex_nil {α : Type} (i : Int) : pyIndex ([] : List α) i = none := by
  unfold pyIndex
  dsimp only
  rw [dif_neg]
  simp only [List.length_nil, Nat.cast_zero, not_and]
  intro h1
  split at h1 <;> omega

/-- A successful Python index means the list is non-empty. -/
theorem pyIndex_isEmpty_eq_false {α : Type} {l : List α} {i : Int} {a : α}
    (h : pyIndex l i = some a) : l.isEmpty = false := by
  cases l with
  | nil => rw [pyIndex_nil] at h; exact absurd h (by simp)
  | cons x xs => rfl

/-- The page loop on a document all of whose pages rasterize: every
texture is added, in page order, and no exception is raised. -/
theorem renderPages_map_some (l : List Texture) :
    renderPages (l.map (fun t => some t)) = (l, true) := by
  induction l with
  | nil => rfl
  | cons t ts ih => simp [renderPages, ih]

/-- Evaluation of `load_current_pdf` when the document opens and every
page rasterizes: the widgets are exactly the page textures in order, the
document is closed, and no exception escapes. -/
theorem load_current_pdf_ok (env : FitzEnv) (s : ViewerState)
    (path : String) (imgs : List Texture)
    (hidx : pyIndex s.pdf_files s.current_index = some path)
    (henv : env path = .ok (imgs.map (fun t => some t))) :
    (load_current_pdf env s).state.pages_layout = imgs ∧
    (load_current_pdf env s).docLeaked = false ∧
    (load_current_pdf env s).raised = false := by
  have hne := pyIndex_isEmpty_eq_false hidx
  simp only [load_current_pdf, hne, Bool.false_eq_true, if_false, hidx,
    henv, renderPages_map_some, if_true]
  refine ⟨?_, ?_, ?_⟩
  · rw [update_pdf_label_layout]
  · rw [update_pdf_label_docLeaked]
  · exact update_pdf_label_raised _ path hidx

/-- Evaluation of `load_current_pdf` when `fitz.open` raises: the page
widgets are cleared and the label carries the error message. -/
theorem load_current_pdf_err (env : FitzEnv) (s : ViewerState)
    (path : String) (e : String)
    (hidx : pyIndex s.pdf_files s.current_index = some path)
    (henv : env path = .error e) :
    (load_current_pdf env s).state.pages_layout = [] ∧
    (load_current_pdf env s).state.pdf_info_label
      = "Error opening PDF:" ++ "\n" ++ e := by
  have hne := pyIndex_isEmpty_eq_false hidx
  simp only [load_current_pdf, hne, Bool.false_eq_true, if_false, hidx, henv]
  exact ⟨trivial, trivial⟩

/-- The error label is never the empty string. -/
theorem err_label_ne_empty (e : String) :
    ("Error opening PDF:" ++ "\n" ++ e) ≠ "" := by
  intro h
  have h2 := congrArg String.data h
  simp [String.data_append] at h2

/-- The drop handler on a path that passes the extension check reduces
to the common append-then-render-or-refresh branch on the old length. -/
theorem add_dropped_pdf_eq_branches (env : FitzEnv) (s : ViewerState)
    (path : String)
    (h : strEndsWith (strLower path) (".pdf") = true) :
    add_dropped_pdf env s path
      = if s.pdf_files.length = 0 then
          load_current_pdf env
            { s with
              pdf_files := s.pdf_files ++ [path],
              current_index := 0 }
        else
          update_pdf_label
            { s with
              pdf_files := s.pdf_files ++ [path] } := by
  unfold add_dropped_pdf
  rw [if_neg (by rw [h]; simp)]

/-- The picker callback on a singleton selection reduces to the same
append-then-render-or-refresh branch on the old length. -/
theorem handle_one_eq_branches (env : FitzEnv) (s : ViewerState)
    (path : String) :
    handle_pdfs_selection env s [path]
      = if s.pdf_files.length = 0 then
          load_current_pdf env
            { s with
              pdf_files := s.pdf_files ++ [path],
              current_index := 0 }
        else
          update_pdf_label
            { s with
              pdf_files := s.pdf_files ++ [path] } := by
  unfold handle_pdfs_selection
  rw [if_neg (by simp)]
  dsimp only
  by_cases hz : s.pdf_files.length = 0
  · rw [if_pos hz, if_pos]
    constructor
    · simp
    · simp [List.length_append, hz]
  · rw [if_neg hz, if_neg]
    intro hc
    have h2 := hc.2
    simp only [List.length_append, List.length_cons, List.length_nil] at h2
    omega

/-- `next_pdf` preserves the cursor invariant. -/
theorem next_pdf_IndexInv (env : FitzEnv) (s : ViewerState)
    (h : IndexInv s) : IndexInv (next_pdf env s).state := by
  unfold next_pdf
  split
  · exact h
  · split
    · exact h
    · rename_i hloc hne
      intro _
      rw [load_current_pdf_index, load_current_pdf_files]
      have hnil : s.pdf_files ≠ [] := by simpa using hne
      have hn : (0 : Int) < (s.pdf_files.length : Int) := by
        exact_mod_cast List.length_pos.mpr hnil
      exact ⟨Int.emod_nonneg _ hn.ne', Int.emod_lt_of_pos _ hn⟩

/-- `prev_pdf` preserves the cursor invariant. -/
theorem prev_pdf_IndexInv (env : FitzEnv) (s : ViewerState)
    (h : IndexInv s) : IndexInv (prev_pdf env s).state := by
  unfold prev_pdf
  split
  · exact h
  · split
    · exact h
    · rename_i hloc hne
      intro _
      rw [load_current_pdf_index, load_current_pdf_files]
      have hnil : s.pdf_files ≠ [] := by simpa using hne
      have hn : (0 : Int) < (s.pdf_files.length : Int) := by
        exact_mod_cast List.length_pos.mpr hnil
      exact ⟨Int.emod_nonneg _ hn.ne', Int.emod_lt_of_pos _ hn⟩

/-- `toggle_lock` preserves the cursor invariant. -/
theorem toggle_lock_IndexInv (s : ViewerState) (h : IndexInv s) :
    IndexInv (toggle_lock s).state := by
  intro hne
  unfold toggle_lock at *
  rw [update_pdf_label_files] at hne
  rw [update_pdf_label_index, update_pdf_label_files]
  exact h hne

/-- `handle_pdfs_selection` preserves the cursor invariant. -/
theorem handle_pdfs_selection_IndexInv (env : FitzEnv) (s : ViewerState)
    (sel : List String) (h : IndexInv s) :
    IndexInv (handle_pdfs_selection env s sel).state := by
  unfold handle_pdfs_selection
  split
  · intro hne
    exact h hne
  · rename_i hsel
    dsimp only
    split
    · rename_i hcond
      intro _
      rw [load_current_pdf_index, load_current_pdf_files]
      refine ⟨le_refl 0, ?_⟩
      have h2 : (s.pdf_files ++ sel).length = sel.length := hcond.2
      have h1 : 0 < sel.length := hcond.1
      simp only [List.length_append] at h2 ⊢
      omega
    · rename_i hcond
      intro _
      rw [update_pdf_label_index, update_pdf_label_files]
      have hselpos : 0 < sel.length := by
        cases sel with
        | nil => simp at hsel
        | cons a l => simp
      have hfiles : s.pdf_files ≠ [] := by
        intro hnil
        exact hcond ⟨hselpos, by rw [hnil]; rfl⟩
      have hb := h hfiles
      simp only [List.length_append]
      constructor
      · exact hb.1
      · have := hb.2
        push_cast
        omega

/-- `add_dropped_pdf` preserves the cursor invariant. -/
theorem add_dropped_pdf_IndexInv (env : FitzEnv) (s : ViewerState)
    (path : String) (h : IndexInv s) :
    IndexInv (add_dropped_pdf env s path).state := by
  unfold add_dropped_pdf
  dsimp only
  split
  · exact h
  · split
    · rename_i hz
      intro _
      rw [load_current_pdf_index, load_current_pdf_files]
      refine ⟨le_refl 0, ?_⟩
      simp only [List.length_append, List.length_cons, List.length_nil]
      push_cast
      omega
    · rename_i hz
      intro _
      rw [update_pdf_label_index, update_pdf_label_files]
      have hfiles : s.pdf_files ≠ [] := by
        intro hnil
        exact hz (by rw [hnil]; rfl)
      have hb := h hfiles
      simp only [List.length_append, List.length_cons, List.length_nil]
      constructor
      · exact hb.1
      · have := hb.2
        push_cast
        omega

/-- Every operation preserves the cursor invariant. -/
theorem runOp_IndexInv (env : FitzEnv) (op : Op) (s : ViewerState)
    (h : IndexInv s) : IndexInv (runOp env s op) := by
  cases op with
  | pick sel => exact handle_pdfs_selection_IndexInv env s sel h
  | drop p => exact add_dropped_pdf_IndexInv env s p h
  | next => exact next_pdf_IndexInv env s h
  | prev => exact prev_pdf_IndexInv env s h
  | lock => exact toggle_lock_IndexInv s h

/-- Every reachable state satisfies the cursor invariant. -/
theorem reachable_IndexInv (s : ViewerState) (h : Reachable s) :
    IndexInv s := by
  induction h with
  | init => intro hne; simp [initState] at hne
  | step env op hr ih => exact runOp_IndexInv env _ _ ih

/-!
The claim theorems.
-/

/-- C1: the spec requires the document resource to be closed after the
render pass even if a later page fails. The code violates this: on
`bad.pdf`, which opens with two pages but whose second page fails to
rasterize, `load_current_pdf` raises out of the page loop before
reaching `doc.close()`, leaving the document open (`docLeaked = true`)
— while the first page, already rasterized, remains displayed. -/
theorem c1_page_failure_leaks_document :
    (load_current_pdf demoEnv sBad).docLeaked = true ∧
    (load_current_pdf demoEnv sBad).raised = true ∧
    (load_current_pdf demoEnv sBad).state.pages_layout = [7] := by
  decide

/-- C2: a render pass on a document that opens with pages rasterizing
to `imgs` replaces whatever was displayed with exactly those images, in
page order; a render pass on a document that fails to open replaces the
display with zero images and a non-empty error status string. -/
theorem c2_render_pass_output (env : FitzEnv) (s : ViewerState)
    (path : String) (imgs : List Texture) (e : String)
    (hidx : pyIndex s.pdf_files s.current_index = some path) :
    (env path = .ok (imgs.map (fun t => some t)) →
       (load_current_pdf env s).state.pages_layout = imgs) ∧
    (env path = .error e →
       (load_current_pdf env s).state.pages_layout = [] ∧
       (load_current_pdf env s).state.pdf_info_label ≠ "") := by
  constructor
  · intro henv
    exact (load_current_pdf_ok env s path imgs hidx henv).1
  · intro henv
    obtain ⟨h1, h2⟩ := load_current_pdf_err env s path e hidx henv
    exact ⟨h1, by rw [h2]; exact err_label_ne_empty e⟩

/-- C2 witness: `a.pdf` has three pages and yields three images in page
order; `x.pdf` fails to open and yields zero images plus a non-empty
error label. -/
theorem c2_render_pass_output_witness :
    ((load_current_pdf demoEnv sA).state.pages_layout = [1, 2, 3]) ∧
    ((load_current_pdf demoEnv sX).state.pages_layout = [] ∧
     (load_current_pdf demoEnv sX).state.pdf_info_label ≠ "") :=
  ⟨(c2_render_pass_output demoEnv sA ("a.pdf") [1, 2, 3] ("boom")
      (by decide)).1 rfl,
   (c2_render_pass_output demoEnv sX ("x.pdf") [1, 2, 3] ("boom")
      (by decide)).2 rfl⟩

/-- C3: when locked, Next/Prev leave the whole screen state unchanged;
when the collection is empty they leave it unchanged; otherwise they
set the cursor to `(currentIndex ± 1) mod length`. -/
theorem c3_nav_semantics (env : FitzEnv) (s : ViewerState) :
    (s.pdf_locked = true →
       next_pdf env s = ⟨s, false, false⟩ ∧
       prev_pdf env s = ⟨s, false, false⟩) ∧
    (s.pdf_files = [] →
       next_pdf env s = ⟨s, false, false⟩ ∧
       prev_pdf env s = ⟨s, false, false⟩) ∧
    (s.pdf_locked = false → s.pdf_files ≠ [] →
       (next_pdf env s).state.current_index
         = (s.current_index + 1) % (s.pdf_files.length : Int) ∧
       (prev_pdf env s).state.current_index
         = (s.current_index - 1) % (s.pdf_files.length : Int)) := by
  refine ⟨?_, ?_, ?_⟩
  · intro h
    constructor <;> simp [next_pdf, prev_pdf, h]
  · intro h
    constructor <;> simp [next_pdf, prev_pdf, h]
  · intro h1 h2
    have hne : s.pdf_files.isEmpty = false := by
      cases h3 : s.pdf_files with
      | nil => exact absurd h3 h2
      | cons a l => rfl
    constructor
    · simp only [next_pdf, h1, Bool.false_eq_true, if_false, hne]
      rw [load_current_pdf_index]
    · simp only [prev_pdf, h1, Bool.false_eq_true, if_false, hne]
      rw [load_current_pdf_index]

/-- C3 witness: on a locked state Next is a no-op; on the empty startup
state Next is a no-op; on two unlocked documents Next and Prev move the
cursor modulo 2. -/
theorem c3_nav_semantics_witness :
    (next_pdf demoEnv sLk = ⟨sLk, false, false⟩ ∧
     prev_pdf demoEnv sLk = ⟨sLk, false, false⟩) ∧
    (next_pdf demoEnv initState = ⟨initState, false, false⟩ ∧
     prev_pdf demoEnv initState = ⟨initState, false, false⟩) ∧
    ((next_pdf demoEnv sU).state.current_index
       = (sU.current_index + 1) % (sU.pdf_files.length : Int) ∧
     (prev_pdf demoEnv sU).state.current_index
       = (sU.current_index - 1) % (sU.pdf_files.length : Int)) :=
  ⟨(c3_nav_semantics demoEnv sLk).1 rfl,
   (c3_nav_semantics demoEnv initState).2.1 rfl,
   (c3_nav_semantics demoEnv sU).2.2 rfl (by decide)⟩

/-- C4: every state reachable from startup by picker appends, drops,
Next, Prev and lock toggles has its cursor in `[0, length-1]` whenever
the collection is non-empty. -/
theorem c4_reachable_cursor_in_range (s : ViewerState) (h : Reachable s)
    (hne : s.pdf_files ≠ []) :
    0 ≤ s.current_index ∧ s.current_index < (s.pdf_files.length : Int) :=
  reachable_IndexInv s h hne

/-- C4 witness: the state reached by dropping `a.pdf` on the startup
state is reachable, non-empty, and has its cursor in range. -/
theorem c4_reachable_cursor_in_range_witness :
    Reachable (runOp demoEnv initState (Op.drop ("a.pdf"))) ∧
    (runOp demoEnv initState (Op.drop ("a.pdf"))).pdf_files ≠ [] ∧
    (0 ≤ (runOp demoEnv initState (Op.drop ("a.pdf"))).current_index ∧
     (runOp demoEnv initState (Op.drop ("a.pdf"))).current_index
       < ((runOp demoEnv initState (Op.drop ("a.pdf"))).pdf_files.length : Int)) :=
  ⟨Reachable.step demoEnv (Op.drop ("a.pdf")) Reachable.init,
   by decide,
   c4_reachable_cursor_in_range _
     (Reachable.step demoEnv (Op.drop ("a.pdf")) Reachable.init) (by decide)⟩

/-- C5: appending a non-empty selection appends exactly those paths at
the end — the prior contents remain an unchanged prefix and the length
grows by the number of paths; the cursor becomes 0 if the collection
was empty and is unchanged otherwise; an empty selection leaves the
collection unchanged. -/
theorem c5_append_semantics (env : FitzEnv) (s : ViewerState)
    (sel : List String) :
    (sel ≠ [] →
       (handle_pdfs_selection env s sel).state.pdf_files
         = s.pdf_files ++ sel ∧
       (handle_pdfs_selection env s sel).state.pdf_files.length
         = s.pdf_files.length + sel.length ∧
       (handle_pdfs_selection env s sel).state.pdf_files.take
           s.pdf_files.length = s.pdf_files ∧
       (s.pdf_files = [] →
          (handle_pdfs_selection env s sel).state.current_index = 0) ∧
       (s.pdf_files ≠ [] →
          (handle_pdfs_selection env s sel).state.current_index
            = s.current_index)) ∧
    (sel = [] →
       (handle_pdfs_selection env s sel).state.pdf_files = s.pdf_files ∧
       (handle_pdfs_selection env s sel).state.current_index
         = s.current_index ∧
       (handle_pdfs_selection env s sel).state.pdf_locked
         = s.pdf_locked) := by
  constructor
  · intro hsel
    have hselE : ¬(sel.isEmpty = true) := by
      cases h3 : sel with
      | nil => exact absurd h3 hsel
      | cons a l => simp
    have hfiles : (handle_pdfs_selection env s sel).state.pdf_files
        = s.pdf_files ++ sel := by
      unfold handle_pdfs_selection
      rw [if_neg hselE]
      dsimp only
      split
      · rw [load_current_pdf_files]
      · rw [update_pdf_label_files]
    refine ⟨hfiles, ?_, ?_, ?_, ?_⟩
    · rw [hfiles, List.length_append]
    · rw [hfiles, List.take_left]
    · intro hnil
      have hcond : 0 < sel.length ∧
          (s.pdf_files ++ sel).length = sel.length := by
        constructor
        · exact List.length_pos.mpr hsel
        · rw [hnil]; rfl
      unfold handle_pdfs_selection
      rw [if_neg hselE]
      dsimp only
      rw [if_pos hcond, load_current_pdf_index]
    · intro hnn
      have hcond : ¬(0 < sel.length ∧
          (s.pdf_files ++ sel).length = sel.length) := by
        intro hc
        have h2 := hc.2
        simp only [List.length_append] at h2
        exact hnn (List.length_eq_zero.mp (by omega))
      unfold handle_pdfs_selection
      rw [if_neg hselE]
      dsimp only
      rw [if_neg hcond, update_pdf_label_index]
  · intro hsel
    subst hsel
    exact ⟨rfl, rfl, rfl⟩

/-- C5 witness: appending `b.pdf` to the one-document state grows the
list by one and keeps the cursor; an empty selection on that state
leaves the collection unchanged. -/
theorem c5_append_semantics_witness :
    ((handle_pdfs_selection demoEnv sA ["b.pdf"]).state.pdf_files
       = sA.pdf_files ++ ["b.pdf"] ∧
     (handle_pdfs_selection demoEnv sA ["b.pdf"]).state.pdf_files.length
       = sA.pdf_files.length + (["b.pdf"] : List String).length ∧
     (handle_pdfs_selection demoEnv sA ["b.pdf"]).state.pdf_files.take
         sA.pdf_files.length = sA.pdf_files ∧
     (sA.pdf_files = [] →
        (handle_pdfs_selection demoEnv sA ["b.pdf"]).state.current_index
          = 0) ∧
     (sA.pdf_files ≠ [] →
        (handle_pdfs_selection demoEnv sA ["b.pdf"]).state.current_index
          = sA.current_index)) ∧
    ((handle_pdfs_selection demoEnv sA []).state.pdf_files = sA.pdf_files ∧
     (handle_pdfs_selection demoEnv sA []).state.current_index
       = sA.current_index ∧
     (handle_pdfs_selection demoEnv sA []).state.pdf_locked
       = sA.pdf_locked) :=
  ⟨(c5_append_semantics demoEnv sA ["b.pdf"]).1 (by decide),
   (c5_append_semantics demoEnv sA []).2 rfl⟩

/-- C6: with the lock engaged, any sequence of Next/Prev keystrokes
leaves the entire screen state — in particular the collection triple
(items, cursor, lock) — unchanged; toggling the lock changes only the
`pdf_locked` flag of the collection, leaving items and cursor as they
were. -/
theorem c6_locked_sequences_noop (env : FitzEnv) (s : ViewerState)
    (ops : List NavOp) (h : s.pdf_locked = true) :
    runNavs env s ops = s ∧
    (toggle_lock s).state.pdf_files = s.pdf_files ∧
    (toggle_lock s).state.current_index = s.current_index ∧
    (toggle_lock s).state.pdf_locked = !s.pdf_locked := by
  refine ⟨?_, ?_, ?_, ?_⟩
  · induction ops with
    | nil => rfl
    | cons op rest ih =>
      cases op with
      | next =>
        have hstep : next_pdf env s = ⟨s, false, false⟩ := by
          simp [next_pdf, h]
        show runNavs env (next_pdf env s).state rest = s
        rw [hstep]
        exact ih
      | prev =>
        have hstep : prev_pdf env s = ⟨s, false, false⟩ := by
          simp [prev_pdf, h]
        show runNavs env (prev_pdf env s).state rest = s
        rw [hstep]
        exact ih
  · unfold toggle_lock
    rw [update_pdf_label_files]
  · unfold toggle_lock
    rw [update_pdf_label_index]
  · unfold toggle_lock
    rw [update_pdf_label_locked]

/-- C6 witness: on the locked two-document state, the keystroke sequence
Next, Next, Prev changes nothing, and the lock toggle flips only the
flag. -/
theorem c6_locked_sequences_noop_witness :
    runNavs demoEnv sLk [NavOp.next, NavOp.next, NavOp.prev] = sLk ∧
    (toggle_lock sLk).state.pdf_files = sLk.pdf_files ∧
    (toggle_lock sLk).state.current_index = sLk.current_index ∧
    (toggle_lock sLk).state.pdf_locked = !sLk.pdf_locked :=
  c6_locked_sequences_noop demoEnv sLk [NavOp.next, NavOp.next, NavOp.prev]
    rfl

/-- C7: a dropped path whose lowercased form does not end in `.pdf` is
silently ignored — the whole state is unchanged and no exception is
raised; otherwise the collection grows by exactly one and the drop
produces exactly the same result as appending that single path through
the file-picker callback. -/
theorem c7_drop_extension_filter (env : FitzEnv) (s : ViewerState)
    (path : String) :
    (strEndsWith (strLower path) (".pdf") = false →
       add_dropped_pdf env s path = ⟨s, false, false⟩) ∧
    (strEndsWith (strLower path) (".pdf") = true →
       (add_dropped_pdf env s path).state.pdf_files.length
         = s.pdf_files.length + 1 ∧
       add_dropped_pdf env s path = handle_pdfs_selection env s [path]) := by
  constructor
  · intro h
    unfold add_dropped_pdf
    rw [if_pos]
    rw [h]
    rfl
  · intro h
    have hfiles : (add_dropped_pdf env s path).state.pdf_files
        = s.pdf_files ++ [path] := by
      rw [add_dropped_pdf_eq_branches env s path h]
      split
      · rw [load_current_pdf_files]
      · rw [update_pdf_label_files]
    constructor
    · rw [hfiles, List.length_append, List.length_cons, List.length_nil]
    · rw [add_dropped_pdf_eq_branches env s path h,
        handle_one_eq_branches env s path]

/-- C7 witness: dropping `notes.txt` on the one-document state changes
nothing; dropping `notes.pdf` grows the collection by one and agrees
with the file-picker append of the same path. -/
theorem c7_drop_extension_filter_witness :
    (add_dropped_pdf demoEnv sA ("notes.txt") = ⟨sA, false, false⟩) ∧
    ((add_dropped_pdf demoEnv sA ("notes.pdf")).state.pdf_files.length
       = sA.pdf_files.length + 1 ∧
     add_dropped_pdf demoEnv sA ("notes.pdf")
       = handle_pdfs_selection demoEnv sA ["notes.pdf"]) :=
  ⟨(c7_drop_extension_filter demoEnv sA ("notes.txt")).1 (by decide),
   (c7_drop_extension_filter demoEnv sA ("notes.pdf")).2 (by decide)⟩

/-- C8 as stated is false on the code: after an empty (cancelled)
file-picker selection on the startup state, the status text is
`No PDFs selected.`, not `No documents selected.`. -/
theorem c8_status_text_counterexample :
    (handle_pdfs_selection demoEnv initState []).state.pdf_info_label
      ≠ "No documents selected." := by
  decide

/-- C8 (amended): for every empty or cancelled file-picker selection,
no append occurs — items, cursor, lock and the displayed pages are all
unchanged — and the status text is set to exactly `No PDFs selected.`. -/
theorem c8_empty_selection (env : FitzEnv) (s : ViewerState) :
    (handle_pdfs_selection env s []).state.pdf_files = s.pdf_files ∧
    (handle_pdfs_selection env s []).state.current_index
      = s.current_index ∧
    (handle_pdfs_selection env s []).state.pdf_locked = s.pdf_locked ∧
    (handle_pdfs_selection env s []).state.pages_layout
      = s.pages_layout ∧
    (handle_pdfs_selection env s []).state.pdf_info_label
      = "No PDFs selected." :=
  ⟨rfl, rfl, rfl, rfl, rfl⟩

/-- C9: the drop extension check is case-insensitive — any path whose
lowercased form ends in `.pdf` is appended with its original spelling,
and is handled by exactly the same branches a lowercase `.pdf` path
goes through: render it if it is the first document, otherwise just
refresh the status label. -/
theorem c9_case_insensitive_extension (env : FitzEnv) (s : ViewerState)
    (path : String)
    (h : strEndsWith (strLower path) (".pdf") = true) :
    (add_dropped_pdf env s path).state.pdf_files
      = s.pdf_files ++ [path] ∧
    (s.pdf_files = [] →
       add_dropped_pdf env s path
         = load_current_pdf env
             { s with
               pdf_files := s.pdf_files ++ [path],
               current_index := 0 }) ∧
    (s.pdf_files ≠ [] →
       add_dropped_pdf env s path
         = update_pdf_label
             { s with
               pdf_files := s.pdf_files ++ [path] }) := by
  refine ⟨?_, ?_, ?_⟩
  · rw [add_dropped_pdf_eq_branches env s path h]
    split
    · rw [load_current_pdf_files]
    · rw [update_pdf_label_files]
  · intro hnil
    rw [add_dropped_pdf_eq_branches env s path h,
      if_pos (by rw [hnil]; rfl)]
  · intro hnn
    rw [add_dropped_pdf_eq_branches env s path h,
      if_neg (fun hz => hnn (List.length_eq_zero.mp hz))]

/-- C9 witness: dropping `NOTES.PDF` (uppercase) on the empty startup
state appends it verbatim and renders it exactly as a first dropped
lowercase path would be. -/
theorem c9_case_insensitive_extension_witness :
    (add_dropped_pdf demoEnv initState ("NOTES.PDF")).state.pdf_files
      = initState.pdf_files ++ ["NOTES.PDF"] ∧
    add_dropped_pdf demoEnv initState ("NOTES.PDF")
      = load_current_pdf demoEnv
          { initState with
            pdf_files := initState.pdf_files ++ ["NOTES.PDF"],
            current_index := 0 } :=
  ⟨(c9_case_insensitive_extension demoEnv initState ("NOTES.PDF")
      (by decide)).1,
   (c9_case_insensitive_extension demoEnv initState ("NOTES.PDF")
      (by decide)).2.1 rfl⟩

/-- C10: on a non-empty, unlocked collection holding exactly one
document, Next and Prev leave the cursor unchanged at 0 but still run a
full render pass: whatever pages were displayed before, afterwards the
page list is the freshly rasterized pages of that single document. -/
theorem c10_single_doc_rerender (env : FitzEnv) (s : ViewerState)
    (p : String) (imgs : List Texture)
    (h1 : s.pdf_files = [p]) (h2 : s.pdf_locked = false)
    (h3 : s.current_index = 0)
    (henv : env p = .ok (imgs.map (fun t => some t))) :
    (next_pdf env s).state.current_index = 0 ∧
    (prev_pdf env s).state.current_index = 0 ∧
    (next_pdf env s).state.pages_layout = imgs ∧
    (prev_pdf env s).state.pages_layout = imgs := by
  obtain ⟨f, i, lk, lay, lab⟩ := s
  dsimp only at h1 h2 h3
  subst h1
  subst h2
  subst h3
  have hnext : next_pdf env ⟨[p], 0, false, lay, lab⟩
      = load_current_pdf env ⟨[p], 0, false, lay, lab⟩ := by
    unfold next_pdf
    rw [if_neg (by simp), if_neg (by simp)]
    congr 1
    dsimp only
    simp only [ViewerState.mk.injEq, List.length_singleton, Nat.cast_one,
      true_and, and_true]
    omega
  have hprev : prev_pdf env ⟨[p], 0, false, lay, lab⟩
      = load_current_pdf env ⟨[p], 0, false, lay, lab⟩ := by
    unfold prev_pdf
    rw [if_neg (by simp), if_neg (by simp)]
    congr 1
  have hok := load_current_pdf_ok env ⟨[p], 0, false, lay, lab⟩ p imgs
    rfl henv
  refine ⟨?_, ?_, ?_, ?_⟩
  · rw [hnext, load_current_pdf_index]
  · rw [hprev, load_current_pdf_index]
  · rw [hnext]
    exact hok.1
  · rw [hprev]
    exact hok.1

/-- C10 witness: on the single-document state viewing `a.pdf` with a
stale widget displayed, Next and Prev keep the cursor at 0 and redisplay
the three freshly rasterized pages. -/
theorem c10_single_doc_rerender_witness :
    (next_pdf demoEnv sA).state.current_index = 0 ∧
    (prev_pdf demoEnv sA).state.current_index = 0 ∧
    (next_pdf demoEnv sA).state.pages_layout = [1, 2, 3] ∧
    (prev_pdf demoEnv sA).state.pages_layout = [1, 2, 3] :=
  c10_single_doc_rerender demoEnv sA ("a.pdf") [1, 2, 3] rfl rfl rfl rfl

end StudentNoteManager
